import Mathlib

/-!
Shallow embedding of the ESSOSC Raster Stats API core
(`src/app_rstats/main.py`) over exact rationals, together with theorems
settling the frozen claims about windowing, masking, statistics reduction
and the two-raster scatter computation.

Conventions:
- Machine floats are modelled by `ℚ`; a pixel value read from a raster is
  `Option ℚ`, with `none` standing for a non-finite float (NaN or ±Inf)
  and `some q` for a finite value.
- An affine geotransform is the rasterio `Affine(a, b, c, d, e, f)`:
  `x = a*col + b*row + c`, `y = d*col + e*row + f`.
- Fallible code paths return `Except` / `Option`.
-/

namespace RStats

/-- Embeds Python's `abs` on floats: `if q < 0 then -q else q`, provably
equal to `|q|`. -/
def qabs (q : ℚ) : ℚ := if q < 0 then -q else q

theorem qabs_eq_abs (q : ℚ) : qabs q = |q| := by
  rcases lt_or_le q 0 with h | h
  · simp [qabs, h, abs_of_neg h]
  · simp [qabs, not_lt.2 h, abs_of_nonneg h]

/-- Affine geotransform, rasterio coefficient order `(a, b, c, d, e, f)`. -/
structure Affine where
  a : ℚ
  b : ℚ
  c : ℚ
  d : ℚ
  e : ℚ
  f : ℚ
deriving DecidableEq

/-- Determinant of the linear part of an affine transform. -/
def Affine.det (t : Affine) : ℚ := t.a * t.e - t.b * t.d

/-- Apply the transform to fractional pixel coordinates `(col, row)`,
giving world coordinates `(x, y)`. -/
def Affine.apply (t : Affine) (col row : ℚ) : ℚ × ℚ :=
  (t.a * col + t.b * row + t.c, t.d * col + t.e * row + t.f)

/-- Inverse transform: world `(x, y)` to fractional `(col, row)`.
Total over `ℚ` (division by a zero determinant yields junk); every use in
this file has a nonzero determinant. -/
def Affine.invApply (t : Affine) (x y : ℚ) : ℚ × ℚ :=
  ((t.e * (x - t.c) - t.b * (y - t.f)) / t.det,
   (-t.d * (x - t.c) + t.a * (y - t.f)) / t.det)

/-- Embeds `numpy.isclose(a, b)` with the default tolerances
`atol = 1e-8`, `rtol = 1e-5`: `|a - b| <= atol + rtol * |b|`
(both arguments finite here, so the NaN/Inf special cases do not arise). -/
def npIsClose (x y : ℚ) : Bool :=
  qabs (x - y) ≤ 1 / 100000000 + (1 / 100000) * qabs y

/-! ## Claim C1: per-pixel area formulas

`_area_per_pixel_m2` (main.py:369-394) computes `abs(a * e)` when the CRS
is projected and returns `None` otherwise; `geometry_stats`
(main.py:750-753) computes `abs(a * e - b * d)` unconditionally. -/

/-- Embeds `_area_per_pixel_m2` (main.py:369-394): `None` unless the CRS
is projected (the `try`/`except` around `ds.crs.is_projected` collapses to
the boolean `isProjected` here), otherwise `abs(ds.transform.a * ds.transform.e)`. -/
def areaPerPixelM2 (isProjected : Bool) (t : Affine) : Option ℚ :=
  if isProjected then some (qabs (t.a * t.e)) else none

/-- Embeds the per-pixel area computed inline by `geometry_stats`
(main.py:752-753): `abs(det)` of the affine transform, computed for every
CRS (projected or not). -/
def geomPixelArea (t : Affine) : ℚ := qabs (t.a * t.e - t.b * t.d)

/-! ## Claim C9: `_compute_window` (main.py:320-366), radius branch -/

/-- Integer pixel window `(col_off, row_off, width, height)`. -/
structure IWin where
  colOff : ℤ
  rowOff : ℤ
  width : ℤ
  height : ℤ
deriving DecidableEq

/-- Embeds the pixel-radius branch of `_compute_window` (main.py:359-366):
`rp = max(0, r - rad)`, `cp = max(0, c - rad)`,
`rh = min(height, r + rad + 1)`, `cw = min(width, c + rad + 1)`,
returning `Window(cp, rp, cw - cp, rh - rp)`; Python's
`(radius_pixels or 0)` maps both `None` and `0` to `0`. -/
def computeWindow (height width r c : ℤ) (radiusPixels : Option ℤ) : IWin :=
  let rad := radiusPixels.getD 0
  let rp := max 0 (r - rad)
  let cp := max 0 (c - rad)
  let rh := min height (r + rad + 1)
  let cw := min width (c + rad + 1)
  ⟨cp, rp, cw - cp, rh - rp⟩

/-! ## Claim C10: validity masks -/

/-- Embeds the pixel-window validity mask of `pixel_stats`
(main.py:462-468): `mask = zeros; if nodata is not None: mask |=
np.isclose(arr, nodata); mask |= ~np.isfinite(arr)`; a pixel is valid iff
unmasked.  `none` is a non-finite value. -/
def pixelValid (nodata : Option ℚ) (v : Option ℚ) : Bool :=
  match v with
  | none => false
  | some q =>
    match nodata with
    | some nd => !npIsClose q nd
    | none => true

/-- Embeds the geometry-path validity of `geometry_stats`
(main.py:694-703): values close to `nodata` are replaced by NaN, pixels
outside the polygon mask are replaced by NaN, and only finite values
survive; a pixel is valid iff it is inside the polygon and its value is
finite and (when a nodata is set) not close to nodata. -/
def geomValid (nodata : Option ℚ) (inside : Bool) (v : Option ℚ) : Bool :=
  inside &&
    (match v with
     | none => false
     | some q =>
       match nodata with
       | some nd => !npIsClose q nd
       | none => true)

/-! ## Windowing pipeline (rasterio semantics) for claims C2, C3, C5 -/

/-- Pixel window with fractional offsets and lengths, as a rasterio
`Window` before rounding. -/
structure Win where
  colOff : ℚ
  rowOff : ℚ
  width : ℚ
  height : ℚ
deriving DecidableEq

/-- Embeds `rasterio.windows.from_bounds(left, bottom, right, top,
transform)`: the four corner world points go through the inverse
transform with `op=float`, and the window spans the min/max of the
resulting fractional columns and rows. -/
def fromBounds (t : Affine) (left bottom right top : ℚ) : Win :=
  let p1 := t.invApply left top
  let p2 := t.invApply right top
  let p3 := t.invApply right bottom
  let p4 := t.invApply left bottom
  let colStart := min (min p1.1 p2.1) (min p3.1 p4.1)
  let colStop := max (max p1.1 p2.1) (max p3.1 p4.1)
  let rowStart := min (min p1.2 p2.2) (min p3.2 p4.2)
  let rowStop := max (max p1.2 p2.2) (max p3.2 p4.2)
  ⟨colStart, rowStart, colStop - colStart, rowStop - rowStart⟩

/-- Embeds `Window.round_offsets()`: offsets to the preceding whole
number.  All uses in this file are at whole-valued windows, where the
floor-versus-nearest convention difference between rasterio versions
vanishes. -/
def roundOffsets (w : Win) : Win :=
  ⟨(⌊w.colOff⌋ : ℚ), (⌊w.rowOff⌋ : ℚ), w.width, w.height⟩

/-- Embeds `Window.round_lengths()` (likewise only applied at
whole-valued windows here). -/
def roundLengths (w : Win) : Win :=
  ⟨w.colOff, w.rowOff, (⌊w.width⌋ : ℚ), (⌊w.height⌋ : ℚ)⟩

/-- Embeds Python's `int()` on a float: truncation toward zero. -/
def intTrunc (q : ℚ) : ℤ := if q < 0 then ⌈q⌉ else ⌊q⌋

/-- Abstract failure kinds of the geometry-statistics pipeline:
the two `HTTPException`s of `_open_raster` (main.py:292-305), rasterio's
`WindowError` raised by `Window.intersection` on disjoint windows, and
the `HTTPException` of the empty-read check (main.py:678-682). -/
inductive AppErr where
  | rasterNotFound
  | rasterFileMissing
  | windowsDoNotIntersect
  | emptyReadWindow
deriving DecidableEq

/-- The full-raster window `Window(0, 0, dataset.width, dataset.height)`. -/
def fullWindow (height width : ℤ) : Win := ⟨0, 0, (width : ℚ), (height : ℚ)⟩

/-- Embeds `Window.intersection` (rasterio `windows.intersection`): the
per-axis strict-overlap test `not (start1 >= stop2 or stop1 <= start2)`;
when it fails rasterio raises `WindowError("windows do not intersect")`,
otherwise the innermost extent is returned. -/
def winIntersection (w1 w2 : Win) : Except AppErr Win :=
  if (w2.rowOff + w2.height ≤ w1.rowOff ∨ w1.rowOff + w1.height ≤ w2.rowOff) ∨
     (w2.colOff + w2.width ≤ w1.colOff ∨ w1.colOff + w1.width ≤ w2.colOff) then
    .error .windowsDoNotIntersect
  else
    .ok ⟨max w1.colOff w2.colOff, max w1.rowOff w2.rowOff,
      min (w1.colOff + w1.width) (w2.colOff + w2.width) -
        max w1.colOff w2.colOff,
      min (w1.rowOff + w1.height) (w2.rowOff + w2.height) -
        max w1.rowOff w2.rowOff⟩

/-- Embeds `_safe_window_for_geom` (main.py:643-672 and its duplicate at
main.py:812-835): exact geometry bounds, then half-pixel padding, then
the clamped centroid pixel.  `dataset.res` is passed explicitly as
`(resx, resy) = (|a|, |e|)`, the rasterio value for the rectilinear
transforms used here (the sheared case involves square roots).  The
geometry enters through the only two features the source consults: its
bounds `(minx, miny, maxx, maxy)` and its centroid `(cx, cy)`.  The
centroid fallback uses `rasterio.transform.rowcol`, whose default `op`
is `floor`, then clamps into the grid. -/
def safeWindowForGeom (height width : ℤ) (t : Affine) (resx resy : ℚ)
    (minx miny maxx maxy cx cy : ℚ) : Except AppErr Win :=
  match winIntersection
      (roundLengths (roundOffsets (fromBounds t minx miny maxx maxy)))
      (fullWindow height width) with
  | .error e => .error e
  | .ok w =>
    if 0 < intTrunc w.width ∧ 0 < intTrunc w.height then .ok w
    else
      match winIntersection
          (roundLengths (roundOffsets (fromBounds t (minx - resx / 2)
            (miny - resy / 2) (maxx + resx / 2) (maxy + resy / 2))))
          (fullWindow height width) with
      | .error e => .error e
      | .ok w2 =>
        if intTrunc w2.width = 0 ∨ intTrunc w2.height = 0 then
          let cr := t.invApply cx cy
          let rr := min (max ⌊cr.2⌋ 0) (height - 1)
          let cc := min (max ⌊cr.1⌋ 0) (width - 1)
          .ok ⟨(cc : ℚ), (rr : ℚ), 1, 1⟩
        else .ok w2

/-- Registry entry for one raster id, as consumed by `_open_raster`. -/
structure RegEntry where
  fileExists : Bool
  nodata : Option ℚ
  units : Option ℚ
deriving DecidableEq

/-- Embeds `_open_raster` (main.py:269-305): `REGISTRY.get(raster_id)`
missing raises the 404 `HTTPException`; a registry entry whose file does
not exist raises the 500 `HTTPException`; otherwise the dataset opens. -/
def openRaster (reg : List (String × RegEntry)) (rid : String) :
    Except AppErr RegEntry :=
  match reg.find? (fun p => p.1 == rid) with
  | none => .error .rasterNotFound
  | some p =>
    if p.2.fileExists then .ok p.2
    else .error .rasterFileMissing

/-- Embeds the `try` body of `geometry_stats` (main.py:629-788) down to
the resolved window: open the raster, resolve the safe window, read it
(`boundless=True` yields `width * height` elements) and fail on an empty
read.  Any error raised inside the body is the `Except.error` case. -/
def geometryStatsTry (reg : List (String × RegEntry)) (rid : String)
    (height width : ℤ) (t : Affine)
    (resx resy minx miny maxx maxy cx cy : ℚ) : Except AppErr Win :=
  match openRaster reg rid with
  | .error e => .error e
  | .ok _ =>
    match safeWindowForGeom height width t resx resy minx miny maxx maxy
        cx cy with
    | .error e => .error e
    | .ok w =>
      if intTrunc w.width * intTrunc w.height = 0 then
        .error .emptyReadWindow
      else .ok w

/-- Embeds the error-handling skeleton of `geometry_stats`
(main.py:601-790): the whole body runs under `try`, and the
`except Exception` block (main.py:789-790) only logs, so every raised
error — including the `HTTPException`s of `_open_raster` and rasterio's
`WindowError` — makes the endpoint finish by returning `None`. -/
def geometryStats (reg : List (String × RegEntry)) (rid : String)
    (height width : ℤ) (t : Affine)
    (resx resy minx miny maxx maxy cx cy : ℚ) : Option Win :=
  (geometryStatsTry reg rid height width t resx resy minx miny maxx maxy
    cx cy).toOption

/-! ## Two-raster scatter: B-side read (claim C5) -/

/-- Embeds the source argument of the `reproject` call in
`geometry_scatter` (main.py:867-877): `dsy.read(1, masked=False)` reads
the full extent of raster B. As a window on B's grid this is
`(0, 0, widthB, heightB)`, whatever raster A's transform and resolved
window are (the unused parameters record exactly that independence). -/
def scatterBSource (_tA : Affine) (_winA : Win) (_tB : Affine)
    (heightB widthB : ℤ) : Win :=
  fullWindow heightB widthB

/-- Modelled from the spec: the B-side read window of §4.6, which is
absent from the source.  The world-space bounding extent of A's window
is computed via A's transform, reprojected into B's CRS (the identity
here: the two rasters share a CRS, where the §4.2 projector is a no-op),
resolved on B's own grid and clamped. -/
def specBSideWindow (tA : Affine) (winA : Win) (tB : Affine)
    (heightB widthB : ℤ) : Except AppErr Win :=
  let p1 := tA.apply winA.colOff winA.rowOff
  let p2 := tA.apply (winA.colOff + winA.width) winA.rowOff
  let p3 := tA.apply (winA.colOff + winA.width) (winA.rowOff + winA.height)
  let p4 := tA.apply winA.colOff (winA.rowOff + winA.height)
  let minx := min (min p1.1 p2.1) (min p3.1 p4.1)
  let maxx := max (max p1.1 p2.1) (max p3.1 p4.1)
  let miny := min (min p1.2 p2.2) (min p3.2 p4.2)
  let maxy := max (max p1.2 p2.2) (max p3.2 p4.2)
  winIntersection (roundLengths (roundOffsets (fromBounds tB minx miny maxx maxy)))
    (fullWindow heightB widthB)

/-! ## Statistics reducers (claims C4, C6, C7, C8) -/

/-- Arithmetic mean, `np.mean`. -/
def mean (l : List ℚ) : ℚ := l.sum / l.length

/-- Sum of squared deviations from the mean; zero exactly on constant
arrays, so it decides numpy's zero-variance condition. -/
def ssd (l : List ℚ) : ℚ := (l.map (fun x => (x - mean l) ^ 2)).sum

/-- Sample variance (`ddof=1`), meaningful for `l.length > 1`. -/
def sampleVar (l : List ℚ) : ℚ := ssd l / ((l.length : ℚ) - 1)

/-- Trichotomy of the float slot that `geometry_scatter` fills with the
Pearson correlation: Python `None`, float NaN, or an ordinary float. -/
inductive CorrVal where
  | absent
  | nan
  | finite
deriving DecidableEq

/-- Embeds `corr = float(np.corrcoef(x_vals, y_vals)[0, 1]) if n_pairs >
1 else None` (main.py:933).  `np.corrcoef` divides the covariance by the
product of the standard deviations, which is a `0/0 = NaN` exactly when
either array has zero variance; otherwise the entry is an ordinary
float.  Only this trichotomy is retained — the finite value involves a
square root and is irrelevant to the claims. -/
def scatterCorr (xs ys : List ℚ) : CorrVal :=
  if xs.length ≤ 1 then .absent
  else if ssd xs = 0 ∨ ssd ys = 0 then .nan
  else .finite

/-- Embeds the `np.linalg.lstsq` fit of main.py:934-941 for the design
matrix `[x, 1]`: ordinary least squares for a nonconstant `x`; for a
constant `x` (so `ssd x = 0`, a rank-deficient design) `lstsq` returns
the minimum-norm solution `(c*ybar/(c^2+1), ybar/(c^2+1))` with `c` the
constant — finite numbers, never NaN and never `None`. -/
def lstsqFit (xs ys : List ℚ) : ℚ × ℚ :=
  let xbar := mean xs
  let ybar := mean ys
  let sxx := ssd xs
  if sxx = 0 then (xbar * ybar / (xbar ^ 2 + 1), ybar / (xbar ^ 2 + 1))
  else
    let sxy := ((xs.zip ys).map (fun p => (p.1 - xbar) * (p.2 - ybar))).sum
    (sxy / sxx, ybar - sxy / sxx * xbar)

/-- Embeds `slope, intercept = np.linalg.lstsq(...)` guarded by
`if n_pairs > 1` with the `else: slope = None; intercept = None` branch
(main.py:934-941). -/
def scatterFit (xs ys : List ℚ) : Option (ℚ × ℚ) :=
  if 1 < xs.length then some (lstsqFit xs ys) else none

/-- Embeds the `n_pairs > max_points` downsampling of `geometry_scatter`
(main.py:922-930).  `choice seed n k` abstracts
`np.random.default_rng(seed).choice(n, size=k, replace=False)`, a
deterministic function of its seed and arguments; `entropy` stands for
the operating-system entropy that `default_rng` would consume were it
seeded with `None` — the source seeds with the literal `0`, so `entropy`
is never consulted. -/
def scatterDownsample (choice : ℕ → ℕ → ℕ → List ℕ) (entropy : ℕ)
    (maxPoints : ℕ) (xs ys : List ℚ) : List ℚ × List ℚ :=
  let n := xs.length
  if maxPoints < n then
    let seed : Option ℕ := some 0
    let idx := choice (seed.getD entropy) n maxPoints
    (idx.map (fun i => xs.getD i 0), idx.map (fun i => ys.getD i 0))
  else (xs, ys)

/-- Ascending sort, for order statistics. -/
def sortQ (l : List ℚ) : List ℚ := l.mergeSort (fun a b => a ≤ b)

/-- Minimum of a value list (`np.min`); `0` on the empty list, which no
caller reaches. -/
def listMin (l : List ℚ) : ℚ :=
  match l with
  | [] => 0
  | x :: xs => xs.foldl min x

/-- Maximum of a value list (`np.max`). -/
def listMax (l : List ℚ) : ℚ :=
  match l with
  | [] => 0
  | x :: xs => xs.foldl max x

/-- Embeds `np.ptp(vals)`: the value range `max - min`. -/
def ptp (l : List ℚ) : ℚ := listMax l - listMin l

/-- Embeds `np.percentile(vals, p)` with the default linear
interpolation: position `p/100 * (n-1)` into the sorted array,
interpolated between the neighbouring order statistics. -/
def percentileQ (l : List ℚ) (p : ℚ) : ℚ :=
  let s := sortQ l
  let n := s.length
  if n = 0 then 0
  else
    let pos := p / 100 * ((n : ℚ) - 1)
    let lo := ⌊pos⌋.toNat
    let frac := pos - (⌊pos⌋ : ℚ)
    let a := s.getD lo 0
    let b := s.getD (min (lo + 1) (n - 1)) 0
    a + frac * (b - a)

/-- Embeds the adaptive bin count of `geometry_stats` (main.py:730-740):
the Freedman–Diaconis width `2 * iqr * n^(-1/3)` (the cube-root factor
is irrational over `ℚ`, so it is the explicit parameter `cbrtInv`), the
Python `or` fallback `np.ptp(vals)/10 or 1` when that width is zero,
`int(np.ceil(range / width))`, and the clamp `max(1, min(bins, 64))`. -/
def geomNumBins (vals : List ℚ) (cbrtInv : ℚ) : ℤ :=
  let iqr := percentileQ vals 75 - percentileQ vals 25
  let bw := 2 * iqr * cbrtInv
  let rangeV := ptp vals
  let bw2 := if bw = 0 then (if rangeV / 10 = 0 then 1 else rangeV / 10) else bw
  max 1 (min ⌈rangeV / bw2⌉ 64)

/-- Embeds the counts of `np.histogram(vals, bins=k)`: `k` equal-width
bins over `[min, max]` (widened by one half on each side when
`min = max`, as numpy does), with the last bin right-closed. -/
def npHistCounts (vals : List ℚ) (k : ℕ) : List ℕ :=
  let lo := listMin vals
  let hi := listMax vals
  let lo2 := if lo = hi then lo - 1 / 2 else lo
  let hi2 := if lo = hi then hi + 1 / 2 else hi
  (List.range k).map (fun (i : ℕ) =>
    (vals.filter (fun v =>
      decide (lo2 + (hi2 - lo2) * (i : ℚ) / (k : ℚ) ≤ v) &&
      (decide (v < lo2 + (hi2 - lo2) * ((i : ℚ) + 1) / (k : ℚ)) ||
        (decide (i = k - 1) &&
          decide (v ≤ lo2 + (hi2 - lo2) * ((i : ℚ) + 1) / (k : ℚ)))))).length)

/-- Bin edges of `np.histogram(vals, bins=k)`. -/
def npHistEdges (vals : List ℚ) (k : ℕ) : List ℚ :=
  let lo := listMin vals
  let hi := listMax vals
  let lo2 := if lo = hi then lo - 1 / 2 else lo
  let hi2 := if lo = hi then hi + 1 / 2 else hi
  (List.range (k + 1)).map (fun (i : ℕ) =>
    lo2 + (hi2 - lo2) * (i : ℚ) / (k : ℚ))

/-- The final histogram of `geometry_stats` (main.py:745):
`np.histogram(vals, bins=num_bins)` with the clamped adaptive count. -/
def geomHistogram (vals : List ℚ) (cbrtInv : ℚ) : List ℕ :=
  npHistCounts vals (geomNumBins vals cbrtInv).toNat

/-- Embeds `np.median`: middle of the sorted array, or the average of
the two middles for even length. -/
def medianQ (l : List ℚ) : ℚ :=
  let s := sortQ l
  let n := s.length
  if n % 2 = 1 then s.getD (n / 2) 0
  else (s.getD (n / 2 - 1) 0 + s.getD (n / 2) 0) / 2

/-- Statistics dictionary of `geometry_stats` (main.py:706-748). -/
structure GeomStats where
  count : ℕ
  min : Option ℚ
  max : Option ℚ
  mean : Option ℚ
  median : Option ℚ
  sum : Option ℚ
  std : Option ℚ
  hist : Option (List ℕ)
  binEdges : Option (List ℚ)
deriving DecidableEq

/-- Embeds the statistics construction of `geometry_stats`
(main.py:706-748): `count` is always the number of valid values; every
other entry starts as `None` and is filled by `stats.update` only when
the value array is nonempty; `std` is the sample standard deviation
(`ddof=1`) for `n > 1` and exactly `0.0` for `n = 1` — the square root
is not rational, so the floating-point square root is the abstract
parameter `sqrtA`. -/
def geometryStatsOf (sqrtA : ℚ → ℚ) (cbrtInv : ℚ) (vals : List ℚ) :
    GeomStats :=
  if vals.isEmpty then
    ⟨vals.length, none, none, none, none, none, none, none, none⟩
  else
    ⟨vals.length, some (listMin vals), some (listMax vals),
      some (mean vals), some (medianQ vals), some vals.sum,
      some (if 1 < vals.length then sqrtA (sampleVar vals) else 0),
      some (geomHistogram vals cbrtInv),
      some (npHistEdges vals (geomNumBins vals cbrtInv).toNat)⟩

/-- Whether a finite value matches the nodata sentinel (`np.isclose`),
`False` when no nodata is set. -/
def nodataClose (nodata : Option ℚ) (q : ℚ) : Bool :=
  match nodata with
  | some nd => npIsClose q nd
  | none => false

/-- Embeds the mask-and-extract step of `geometry_stats`
(main.py:694-704) over the read window's pixels, each carrying its
polygon-containment flag and its (possibly non-finite) value: values
close to nodata become NaN, pixels outside the polygon become NaN, and
`vals` keeps the finite survivors in order. -/
def geomMaskedVals (nodata : Option ℚ) (pixels : List (Bool × Option ℚ)) :
    List ℚ :=
  pixels.filterMap (fun p =>
    match p.2 with
    | some q => if geomValid nodata p.1 (some q) then some q else none
    | none => none)

/-- Statistics dictionary of `pixel_stats` (main.py:472-508), histogram
included. -/
structure WinStats where
  count : ℕ
  min : Option ℚ
  max : Option ℚ
  mean : Option ℚ
  median : Option ℚ
  std : Option ℚ
  fullAreaM2 : Option ℚ
  nonNodataAreaM2 : Option ℚ
  hist : List ℕ
  histEdges : List ℚ
  histCount : ℕ
deriving DecidableEq

/-- Embeds the statistics construction of `pixel_stats`
(main.py:472-508): with no valid pixel, `count = 0`, the five summary
fields and both area fields are `None` and the histogram is empty;
otherwise every summary field is filled, the histogram has
`histogram_bins` bins, and the area fields are filled from
`_area_per_pixel_m2` exactly when that is not `None`. -/
def pixelStatsOf (sqrtA : ℚ → ℚ) (isProjected : Bool) (t : Affine)
    (bins : ℕ) (countAll : ℕ) (vals : List ℚ) : WinStats :=
  if vals.isEmpty then
    ⟨0, none, none, none, none, none, none, none, [], [], 0⟩
  else
    let pxArea := areaPerPixelM2 isProjected t
    ⟨vals.length, some (listMin vals), some (listMax vals),
      some (mean vals), some (medianQ vals),
      some (if 1 < vals.length then sqrtA (sampleVar vals) else 0),
      pxArea.map (fun p => p * (countAll : ℚ)),
      pxArea.map (fun p => p * (vals.length : ℚ)),
      npHistCounts vals bins, npHistEdges vals bins, vals.length⟩

/-- Embeds the pixel-window mask-and-extract of `pixel_stats`
(main.py:462-468): `vals = arr[~mask]` with the mask of `pixelValid`. -/
def pixelMaskedVals (nodata : Option ℚ) (raw : List (Option ℚ)) : List ℚ :=
  raw.filterMap (fun v =>
    match v with
    | some q => if pixelValid nodata (some q) then some q else none
    | none => none)

end RStats

namespace RStats

/-- C1 counterexample: on the sheared transform `a=1, b=1, d=1, e=1`
(determinant `0`) with a projected CRS, `_area_per_pixel_m2` returns
`1` — neither the absolute determinant `0` nor `None`. -/
theorem c1_area_counterexample :
    areaPerPixelM2 true ⟨1, 1, 0, 1, 1, 0⟩ = some 1 ∧
    geomPixelArea ⟨1, 1, 0, 1, 1, 0⟩ = 0 ∧
    areaPerPixelM2 true ⟨1, 1, 0, 1, 1, 0⟩ ≠
      some (geomPixelArea ⟨1, 1, 0, 1, 1, 0⟩) ∧
    areaPerPixelM2 true ⟨1, 1, 0, 1, 1, 0⟩ ≠ none := by
  refine ⟨?_, ?_, ?_, ?_⟩ <;>
    simp [areaPerPixelM2, geomPixelArea, qabs] <;> norm_num

/-- C1 amended: the geometry-statistics path computes per-pixel area as
the absolute determinant `|a*e - b*d|` for every transform (and for every
CRS, returning a number rather than `None`), while the pixel-window
path's `_area_per_pixel_m2` returns the naive `|a*e|` whenever the CRS is
projected and `None` exactly when it is not (never `None` for a
zero-determinant transform); the two formulas agree whenever `b*d = 0`,
in particular on axis-aligned grids. -/
theorem c1_area_amended (t : Affine) (proj : Bool) :
    geomPixelArea t = |t.a * t.e - t.b * t.d| ∧
    ((areaPerPixelM2 proj t).isSome ↔ proj = true) ∧
    (proj = true → areaPerPixelM2 proj t = some |t.a * t.e|) ∧
    (t.b * t.d = 0 → areaPerPixelM2 true t = some (geomPixelArea t)) := by
  refine ⟨qabs_eq_abs _, ?_, ?_, ?_⟩
  · cases proj <;> simp [areaPerPixelM2]
  · intro h; subst h
    simp [areaPerPixelM2, qabs_eq_abs]
  · intro h
    simp [areaPerPixelM2, geomPixelArea, h]

/-- C1 amended, witness at the sheared zero-determinant transform and at
an axis-aligned transform. -/
theorem c1_area_amended_witness :
    geomPixelArea ⟨1, 1, 0, 1, 1, 0⟩ = |(1 : ℚ) * 1 - 1 * 1| ∧
    areaPerPixelM2 true ⟨2, 0, 0, 0, -3, 0⟩ =
      some (geomPixelArea ⟨2, 0, 0, 0, -3, 0⟩) := by
  exact ⟨(c1_area_amended ⟨1, 1, 0, 1, 1, 0⟩ true).1,
    (c1_area_amended ⟨2, 0, 0, 0, -3, 0⟩ true).2.2.2 (by simp)⟩

/-- C9: for an in-bounds center pixel `(r, c)` and radius `rad ≥ 0`, the
window of `_compute_window` covers exactly the rows
`[r - rad, r + rad]` clamped to `[0, height)` and symmetrically the
columns; `radius_pixels = None` yields the single center pixel; and on a
10×10 raster the radius-1 query at center `(5, 5)` yields the window
`(col_off=4, row_off=4, width=3, height=3)`. -/
theorem c9_radius_window (height width r c rad : ℤ)
    (hr0 : 0 ≤ r) (hrh : r < height) (hc0 : 0 ≤ c) (hcw : c < width)
    (_hrad : 0 ≤ rad) :
    (∀ i : ℤ,
      ((computeWindow height width r c (some rad)).rowOff ≤ i ∧
        i < (computeWindow height width r c (some rad)).rowOff +
          (computeWindow height width r c (some rad)).height) ↔
      (r - rad ≤ i ∧ i ≤ r + rad ∧ 0 ≤ i ∧ i < height)) ∧
    (∀ j : ℤ,
      ((computeWindow height width r c (some rad)).colOff ≤ j ∧
        j < (computeWindow height width r c (some rad)).colOff +
          (computeWindow height width r c (some rad)).width) ↔
      (c - rad ≤ j ∧ j ≤ c + rad ∧ 0 ≤ j ∧ j < width)) ∧
    computeWindow height width r c none = ⟨c, r, 1, 1⟩ ∧
    computeWindow 10 10 5 5 (some 1) = ⟨4, 4, 3, 3⟩ := by
  refine ⟨?_, ?_, ?_, ?_⟩
  · intro i
    simp only [computeWindow, Option.getD]
    omega
  · intro j
    simp only [computeWindow, Option.getD]
    omega
  · simp only [computeWindow, Option.getD, IWin.mk.injEq]
    omega
  · simp only [computeWindow, Option.getD, IWin.mk.injEq]
    omega

/-- C9 witness at the concrete 10×10 scenario of the spec. -/
theorem c9_radius_window_witness :
    (∀ i : ℤ,
      ((computeWindow 10 10 5 5 (some 1)).rowOff ≤ i ∧
        i < (computeWindow 10 10 5 5 (some 1)).rowOff +
          (computeWindow 10 10 5 5 (some 1)).height) ↔
      ((5 : ℤ) - 1 ≤ i ∧ i ≤ 5 + 1 ∧ 0 ≤ i ∧ i < 10)) ∧
    computeWindow 10 10 5 5 none = ⟨5, 5, 1, 1⟩ := by
  have h := c9_radius_window 10 10 5 5 1 (by decide) (by decide)
    (by decide) (by decide) (by decide)
  exact ⟨h.1, h.2.2.1⟩

/-- Step-1 window of the C2 scenario: the bounds `(100, 100, 101, 101)`
lie entirely outside the 10×10 north-up unit grid. -/
theorem c2aux_fromBounds :
    fromBounds ⟨1, 0, 0, 0, -1, 10⟩ 100 100 101 101 = ⟨100, -91, 1, 1⟩ := by
  norm_num [fromBounds, Affine.invApply, Affine.det, min_def, max_def]

/-- Rounding is the identity on the whole-valued step-1 window. -/
theorem c2aux_rounds :
    roundLengths (roundOffsets (⟨100, -91, 1, 1⟩ : Win)) =
      ⟨100, -91, 1, 1⟩ := by
  norm_num [roundOffsets, roundLengths]

/-- The step-1 window is disjoint from the raster's full window, so
`Window.intersection` raises rasterio's `WindowError`. -/
theorem c2aux_intersect :
    winIntersection (⟨100, -91, 1, 1⟩ : Win) (fullWindow 10 10) =
      .error .windowsDoNotIntersect := by
  norm_num [winIntersection, fullWindow]

/-- C2 (code bug evaluation): for a geometry whose bounds lie entirely
outside the raster grid, `_safe_window_for_geom` never reaches its
padding or centroid fallbacks — the very first `Window.intersection`
raises rasterio's `WindowError` — and the blanket `except Exception` of
`geometry_stats` swallows it, so the endpoint finishes with `None`
rather than surfacing a `WindowEmpty`-style client-input error (the 400
branch at main.py:678-682 is unreachable). -/
theorem c2_outside_geometry_eval :
    safeWindowForGeom 10 10 ⟨1, 0, 0, 0, -1, 10⟩ 1 1 100 100 101 101
      (201 / 2) (201 / 2) = .error .windowsDoNotIntersect ∧
    geometryStats [("a", ⟨true, none, none⟩)] "a" 10 10
      ⟨1, 0, 0, 0, -1, 10⟩ 1 1 100 100 101 101 (201 / 2) (201 / 2) =
      none := by
  have hw : safeWindowForGeom 10 10 ⟨1, 0, 0, 0, -1, 10⟩ 1 1 100 100 101 101
      (201 / 2) (201 / 2) = .error .windowsDoNotIntersect := by
    unfold safeWindowForGeom
    rw [c2aux_fromBounds, c2aux_rounds, c2aux_intersect]
  refine ⟨hw, ?_⟩
  unfold geometryStats geometryStatsTry
  rw [show openRaster [("a", ⟨true, none, none⟩)] "a" =
    .ok ⟨true, none, none⟩ from rfl, hw]
  rfl

/-- C5 counterexample: with both rasters on the same 10×10 north-up unit
grid and raster A's resolved window the 2×2 block at `(4, 4)`, the
spec's B-side read window is that same 2×2 block, but the code's source
argument to `reproject` is the full 10×10 extent of B. -/
theorem c5_bread_counterexample :
    scatterBSource ⟨1, 0, 0, 0, -1, 10⟩ ⟨4, 4, 2, 2⟩ ⟨1, 0, 0, 0, -1, 10⟩
      10 10 = fullWindow 10 10 ∧
    specBSideWindow ⟨1, 0, 0, 0, -1, 10⟩ ⟨4, 4, 2, 2⟩ ⟨1, 0, 0, 0, -1, 10⟩
      10 10 = .ok ⟨4, 4, 2, 2⟩ ∧
    fullWindow 10 10 ≠ (⟨4, 4, 2, 2⟩ : Win) := by
  refine ⟨rfl, ?_, ?_⟩
  · norm_num [specBSideWindow, Affine.apply, fromBounds, Affine.invApply,
      Affine.det, roundOffsets, roundLengths, winIntersection, fullWindow,
      min_def, max_def]
  · simp only [fullWindow, ne_eq, Win.mk.injEq]
    norm_num

/-- C5 amended: the data of raster B handed to the resampling step is
the full extent of B — the window `(0, 0, widthB, heightB)` containing
every pixel of B, identical whatever raster A's transform and resolved
window are — rather than a B-side sub-window covering A's window
extent. -/
theorem c5_bread_amended (tA tA' : Affine) (winA winA' : Win)
    (tB tB' : Affine) (heightB widthB : ℤ) :
    scatterBSource tA winA tB heightB widthB =
      scatterBSource tA' winA' tB' heightB widthB ∧
    scatterBSource tA winA tB heightB widthB = fullWindow heightB widthB ∧
    (∀ r c : ℤ, 0 ≤ r → r < heightB → 0 ≤ c → c < widthB →
      (scatterBSource tA winA tB heightB widthB).colOff ≤ (c : ℚ) ∧
      (c : ℚ) < (scatterBSource tA winA tB heightB widthB).colOff +
        (scatterBSource tA winA tB heightB widthB).width ∧
      (scatterBSource tA winA tB heightB widthB).rowOff ≤ (r : ℚ) ∧
      (r : ℚ) < (scatterBSource tA winA tB heightB widthB).rowOff +
        (scatterBSource tA winA tB heightB widthB).height) := by
  refine ⟨rfl, rfl, ?_⟩
  intro r c hr0 hrh hc0 hcw
  simp only [scatterBSource, fullWindow, zero_add]
  refine ⟨by exact_mod_cast hc0, by exact_mod_cast hcw,
    by exact_mod_cast hr0, by exact_mod_cast hrh⟩

/-- C5 amended witness: two unrelated A-side configurations give the
same full-extent B read, which contains the pixel `(3, 7)`. -/
theorem c5_bread_amended_witness :
    scatterBSource ⟨1, 0, 0, 0, -1, 10⟩ ⟨4, 4, 2, 2⟩ ⟨1, 0, 0, 0, -1, 10⟩
      10 10 =
      scatterBSource ⟨2, 0, 0, 0, -2, 0⟩ ⟨0, 0, 1, 1⟩ ⟨1, 0, 0, 0, -1, 5⟩
        10 10 ∧
    (scatterBSource ⟨1, 0, 0, 0, -1, 10⟩ ⟨4, 4, 2, 2⟩ ⟨1, 0, 0, 0, -1, 10⟩
      10 10).colOff ≤ ((7 : ℤ) : ℚ) := by
  have h := c5_bread_amended ⟨1, 0, 0, 0, -1, 10⟩ ⟨2, 0, 0, 0, -2, 0⟩
    ⟨4, 4, 2, 2⟩ ⟨0, 0, 1, 1⟩ ⟨1, 0, 0, 0, -1, 10⟩ ⟨1, 0, 0, 0, -1, 5⟩ 10 10
  exact ⟨h.1, (h.2.2 3 7 (by decide) (by decide) (by decide) (by decide)).1⟩

/-- C3 (code bug evaluation): a geometry-statistics query whose raster
id is absent from the registry, or whose registry entry points to a
missing file, raises inside the `try` body of `geometry_stats`
(`Except.error` in the embedding), but the blanket `except Exception`
only logs, so the endpoint completes by returning `None` instead of
raising the error to the caller. -/
theorem c3_error_swallowed_eval :
    geometryStatsTry [("a", ⟨true, none, none⟩)] "missing" 10 10
      ⟨1, 0, 0, 0, -1, 10⟩ 1 1 0 0 1 1 (1 / 2) (1 / 2) =
      .error .rasterNotFound ∧
    geometryStats [("a", ⟨true, none, none⟩)] "missing" 10 10
      ⟨1, 0, 0, 0, -1, 10⟩ 1 1 0 0 1 1 (1 / 2) (1 / 2) = none ∧
    geometryStatsTry [("b", ⟨false, none, none⟩)] "b" 10 10
      ⟨1, 0, 0, 0, -1, 10⟩ 1 1 0 0 1 1 (1 / 2) (1 / 2) =
      .error .rasterFileMissing ∧
    geometryStats [("b", ⟨false, none, none⟩)] "b" 10 10
      ⟨1, 0, 0, 0, -1, 10⟩ 1 1 0 0 1 1 (1 / 2) (1 / 2) = none := by
  refine ⟨rfl, rfl, rfl, rfl⟩

/-- C6: the downsampled plotting output, on a paired sample larger than
`max_points`, depends only on the seed literal `0` and the inputs: two
invocations with identical inputs but different ambient entropy produce
identical `x`/`y` lists. -/
theorem c6_downsample_deterministic (choice : ℕ → ℕ → ℕ → List ℕ)
    (e1 e2 : ℕ) (maxPoints : ℕ) (xs ys : List ℚ)
    (_h : maxPoints < xs.length) :
    scatterDownsample choice e1 maxPoints xs ys =
      scatterDownsample choice e2 maxPoints xs ys := rfl

/-- C6 witness: a seed-sensitive choice function, two different entropy
values, and a sample of 3 capped at 2. -/
theorem c6_downsample_deterministic_witness :
    scatterDownsample (fun s _ k => List.range (s + k)) 17 2
      [1, 2, 3] [4, 5, 6] =
    scatterDownsample (fun s _ k => List.range (s + k)) 42 2
      [1, 2, 3] [4, 5, 6] :=
  c6_downsample_deterministic (fun s _ k => List.range (s + k)) 17 42 2
    [1, 2, 3] [4, 5, 6] (by decide)

/-- C4 counterexample: at `x = [1, 1]`, `y = [0, 1]` the paired sample
has `n = 2 > 1` but `x` has zero variance; the code still computes the
correlation — NaN, not the `None` the claim requires — and still
computes the least-squares fit. -/
theorem c4_corr_counterexample :
    scatterCorr [1, 1] [0, 1] = CorrVal.nan ∧
    scatterCorr [1, 1] [0, 1] ≠ CorrVal.absent ∧
    scatterFit [1, 1] [0, 1] ≠ none := by
  have hs : ssd [1, 1] = 0 := by
    norm_num [ssd, mean]
  refine ⟨?_, ?_, ?_⟩
  · simp [scatterCorr, hs]
  · simp [scatterCorr, hs]
  · simp [scatterFit]

/-- C4 amended: the correlation and the least-squares fit are computed
whenever `n > 1` with no variance guard: the correlation is `None` iff
`n <= 1`; it is NaN exactly when `n > 1` and either array is constant
(zero variance); and the slope/intercept pair is present iff `n > 1`,
finite even for a constant array via the minimum-norm solution. -/
theorem c4_corr_amended (xs ys : List ℚ) :
    (scatterCorr xs ys = CorrVal.absent ↔ xs.length ≤ 1) ∧
    (scatterCorr xs ys = CorrVal.nan ↔
      1 < xs.length ∧ (ssd xs = 0 ∨ ssd ys = 0)) ∧
    ((scatterFit xs ys).isSome ↔ 1 < xs.length) := by
  unfold scatterCorr scatterFit
  split_ifs with h1 h2 <;> simp_all <;> omega

/-- The counts list of `np.histogram` always has exactly `k` entries. -/
theorem npHistCounts_length (vals : List ℚ) (k : ℕ) :
    (npHistCounts vals k).length = k := by
  simp only [npHistCounts, List.length_map, List.length_range]

/-- C7: for every nonempty value array the clamped adaptive bin count of
`geometry_stats` lies in `[1, 64]`, and the final histogram is built
with exactly that fixed bin count, so its length is in `[1, 64]` too —
for constant arrays (zero IQR and zero range) and extreme outliers
alike. -/
theorem c7_histogram_bins_bounded (vals : List ℚ) (cbrtInv : ℚ)
    (_hne : vals ≠ []) (_hc : 0 < cbrtInv) :
    1 ≤ geomNumBins vals cbrtInv ∧ geomNumBins vals cbrtInv ≤ 64 ∧
    (geomHistogram vals cbrtInv).length =
      (geomNumBins vals cbrtInv).toNat ∧
    1 ≤ (geomHistogram vals cbrtInv).length ∧
    (geomHistogram vals cbrtInv).length ≤ 64 := by
  have h1 : 1 ≤ geomNumBins vals cbrtInv := le_max_left _ _
  have h2 : geomNumBins vals cbrtInv ≤ 64 := by
    unfold geomNumBins
    exact max_le (by norm_num) (min_le_right _ _)
  have h3 : (geomHistogram vals cbrtInv).length =
      (geomNumBins vals cbrtInv).toNat := by
    unfold geomHistogram
    exact npHistCounts_length _ _
  refine ⟨h1, h2, h3, ?_, ?_⟩ <;> rw [h3] <;> omega

/-- C7 witness at the constant singleton array `[0]`. -/
theorem c7_histogram_bins_bounded_witness :
    1 ≤ geomNumBins [0] 1 ∧ geomNumBins [0] 1 ≤ 64 ∧
    (geomHistogram [0] 1).length = (geomNumBins [0] 1).toNat ∧
    1 ≤ (geomHistogram [0] 1).length ∧
    (geomHistogram [0] 1).length ≤ 64 :=
  c7_histogram_bins_bounded [0] 1 (List.cons_ne_nil 0 []) one_pos

/-- Auxiliary for C8: when every finite pixel value matches the nodata
sentinel, the masked value list of the geometry path is empty. -/
theorem geomMaskedVals_all_nodata (nodata : Option ℚ)
    (pixels : List (Bool × Option ℚ))
    (h : ∀ p ∈ pixels, ∀ v, p.2 = some v → nodataClose nodata v = true) :
    geomMaskedVals nodata pixels = [] := by
  induction pixels with
  | nil => rfl
  | cons p ps ih =>
    have hps : ∀ q ∈ ps, ∀ v, q.2 = some v → nodataClose nodata v = true :=
      fun q hq => h q (List.mem_cons_of_mem p hq)
    cases hp : p.2 with
    | none =>
      simp only [geomMaskedVals, List.filterMap_cons, hp]
      exact ih hps
    | some v =>
      have hv := h p (List.mem_cons_self p ps) v hp
      have hval : geomValid nodata p.1 (some v) = false := by
        cases hnd : nodata with
        | none => simp [nodataClose, hnd] at hv
        | some nd =>
          have : npIsClose v nd = true := by
            simpa [nodataClose, hnd] using hv
          simp [geomValid, this]
      simp only [geomMaskedVals, List.filterMap_cons, hp, hval,
        Bool.false_eq_true, if_false]
      exact ih hps

/-- C8: the statistics reductions of both the geometry path and the
pixel-window path raise nothing on an empty masked value array: `count`
is the number of valid values, and each summary field — min, max, mean,
median, sum (geometry path), std, histogram — is absent exactly when the
value array is empty, so the empty branch is the only one returning
absent statistics; and when every finite pixel value matches the nodata
sentinel, the masked value list is empty, so the reduction lands in that
absent branch and no NaN reaches any statistic field. -/
theorem c8_empty_stats (sqrtA : ℚ → ℚ) (cbrtInv : ℚ) (vals : List ℚ)
    (nodata : Option ℚ) (pixels : List (Bool × Option ℚ))
    (isProj : Bool) (t : Affine) (bins countAll : ℕ) :
    (geometryStatsOf sqrtA cbrtInv vals).count = vals.length ∧
    ((geometryStatsOf sqrtA cbrtInv vals).min.isSome ↔ vals ≠ []) ∧
    ((geometryStatsOf sqrtA cbrtInv vals).max.isSome ↔ vals ≠ []) ∧
    ((geometryStatsOf sqrtA cbrtInv vals).mean.isSome ↔ vals ≠ []) ∧
    ((geometryStatsOf sqrtA cbrtInv vals).median.isSome ↔ vals ≠ []) ∧
    ((geometryStatsOf sqrtA cbrtInv vals).sum.isSome ↔ vals ≠ []) ∧
    ((geometryStatsOf sqrtA cbrtInv vals).std.isSome ↔ vals ≠ []) ∧
    ((geometryStatsOf sqrtA cbrtInv vals).hist.isSome ↔ vals ≠ []) ∧
    ((geometryStatsOf sqrtA cbrtInv vals).binEdges.isSome ↔ vals ≠ []) ∧
    (pixelStatsOf sqrtA isProj t bins countAll vals).count = vals.length ∧
    ((pixelStatsOf sqrtA isProj t bins countAll vals).min.isSome ↔
      vals ≠ []) ∧
    ((pixelStatsOf sqrtA isProj t bins countAll vals).max.isSome ↔
      vals ≠ []) ∧
    ((pixelStatsOf sqrtA isProj t bins countAll vals).mean.isSome ↔
      vals ≠ []) ∧
    ((pixelStatsOf sqrtA isProj t bins countAll vals).median.isSome ↔
      vals ≠ []) ∧
    ((pixelStatsOf sqrtA isProj t bins countAll vals).std.isSome ↔
      vals ≠ []) ∧
    ((pixelStatsOf sqrtA isProj t bins countAll vals).hist.length =
      if vals = [] then 0 else bins) ∧
    ((∀ p ∈ pixels, ∀ v, p.2 = some v → nodataClose nodata v = true) →
      geomMaskedVals nodata pixels = []) := by
  cases vals with
  | nil =>
    refine ⟨rfl, ?_, ?_, ?_, ?_, ?_, ?_, ?_, ?_, rfl, ?_, ?_, ?_, ?_, ?_,
      ?_, geomMaskedVals_all_nodata nodata pixels⟩ <;>
      simp [geometryStatsOf, pixelStatsOf]
  | cons a l =>
    refine ⟨?_, ?_, ?_, ?_, ?_, ?_, ?_, ?_, ?_, ?_, ?_, ?_, ?_, ?_, ?_,
      ?_, geomMaskedVals_all_nodata nodata pixels⟩ <;>
      simp [geometryStatsOf, pixelStatsOf, npHistCounts_length]

/-- C8 witness: the empty value array, and a window whose only pixel is
non-finite with nodata set. -/
theorem c8_empty_stats_witness :
    (geometryStatsOf (fun q => q) 1 ([] : List ℚ)).count =
      ([] : List ℚ).length ∧
    ((geometryStatsOf (fun q => q) 1 ([] : List ℚ)).min.isSome ↔
      ([] : List ℚ) ≠ []) ∧
    geomMaskedVals (some 0) [(true, none)] = [] := by
  have h := c8_empty_stats (fun q => q) 1 [] (some 0) [(true, none)] true
    ⟨1, 0, 0, 0, -1, 10⟩ 16 0
  exact ⟨h.1, h.2.1,
    h.2.2.2.2.2.2.2.2.2.2.2.2.2.2.2.2 (by simp)⟩

/-- C4 amended witness at the constant-`x` pair `x = [1, 1]`,
`y = [0, 1]`. -/
theorem c4_corr_amended_witness :
    (scatterCorr [1, 1] [0, 1] = CorrVal.absent ↔
      ([1, 1] : List ℚ).length ≤ 1) ∧
    (scatterCorr [1, 1] [0, 1] = CorrVal.nan ↔
      1 < ([1, 1] : List ℚ).length ∧
        (ssd [1, 1] = 0 ∨ ssd [0, 1] = 0)) ∧
    ((scatterFit [1, 1] [0, 1]).isSome ↔ 1 < ([1, 1] : List ℚ).length) :=
  c4_corr_amended [1, 1] [0, 1]

/-- C10: when the effective nodata value is `None`, the validity mask of
both the pixel-window path and the geometry-statistics path degrades to
the finiteness test alone: a pixel is valid iff its value is finite (for
the geometry path, among the pixels inside the polygon), and no
tolerance-based nodata comparison is applied. -/
theorem c10_nodata_none_validity (v : Option ℚ) (inside : Bool) :
    pixelValid none v = v.isSome ∧
    geomValid none inside v = (inside && v.isSome) := by
  cases v <;> cases inside <;> simp [pixelValid, geomValid]

end RStats
